import Mathlib

/-!
Verification of the event pipeline and completion-detection engine of the
bbot scan manager (`bbot/scanner/manager.py`, class `ScanManager`).

The Python class is shallowly embedded: every method that the claims touch
becomes an executable Lean function over explicit state.  Mutable fields of
the manager (the accepted/distributed ledgers) and of the event objects
(tags, scope distance) are threaded explicitly; external collaborators
(the scan object, the DNS resolver, the module registry, worker pools) are
parameters.  Side effects on the per-event concurrency primitives — the
permit (`release_semaphore`) and the single-fire completion signal
(`_resolved.set`) — are recorded as counters in an effect trace, since the
properties under scrutiny count exactly how often each fires on each exit
path.
-/

namespace BBot

/-- A discovery event, as `manager.py` sees it.  The event class itself
lives outside the embedded file, so its attributes are modelled from the
spec (§3 Data model): `type`/`value` are the event's intrinsic identity,
`module` is `str(event.module)`, `moduleType` is
`getattr(event.module, "_type", "")`, `suppressDupes` is
`getattr(event.module, "suppress_dupes", True)`, `forceOutput` is
`event._force_output`, `dummy` is `event._dummy`, `selfSource` is the
result of `event == event.get_source()`, `sourceId` is `event.source_id`,
`sourceScopeDistance` is `event.source.scope_distance`, `sourceResolved`
is the state of the parent's completion signal `event.source._resolved`,
and `host` is `event.host` (`none` when falsy). -/
structure Event where
  type : String
  value : String
  module : String
  moduleType : String := ""
  suppressDupes : Bool := true
  forceOutput : Bool := false
  dummy : Bool := false
  selfSource : Bool := false
  sourceId : Nat := 0
  sourceScopeDistance : Int := 0
  sourceResolved : Bool := false
  host : Option String := none
  tags : List String := []
  scopeDistance : Int := -1
  internal : Bool := false
  deriving Repr, DecidableEq

/-- Intrinsic identity of an event, the value Python's `hash(event)`
stands for.  Modelled from the spec: "Identity hash of an event is
(type, value, module)" — the module qualifier is added separately by
`hash_event`, so the event's own hash covers its type and value. -/
def eventId (e : Event) : String × String := (e.type, e.value)

/-- Result of `ScanManager.hash_event`: either the module-qualified
intrinsic identity, or (for events produced by a DNS dummy module) that
identity further qualified by the source event's identity. -/
inductive EventHash where
  | dnsQualified (id : String × String) (module : String) (sourceId : Nat)
  | plain (id : String × String) (module : String)
  deriving Repr, DecidableEq

/-- `ScanManager.hash_event` (manager.py:222-234): events whose producing
module has `_type == "DNS"` hash together with their `source_id`, so that
duplicate DNS records arriving via different lineages stay distinct;
every other event hashes as `(event, str(event.module))`. -/
def hash_event (e : Event) : EventHash :=
  if e.moduleType = "DNS" then .dnsQualified (eventId e) e.module e.sourceId
  else .plain (eventId e) e.module

/-- `ScanManager.is_duplicate_event` (manager.py:236-243).  The manager's
`events_accepted` set is passed and returned explicitly; `add = true`
registers the hash.  Returns the duplicate verdict together with the
updated ledger. -/
def is_duplicate_event (events_accepted : List EventHash) (e : Event)
    (add : Bool) : Bool × List EventHash :=
  let event_hash := hash_event e
  let duplicate_event := e.suppressDupes && events_accepted.contains event_hash
  let events_accepted' :=
    if add then event_hash :: events_accepted else events_accepted
  (duplicate_event && !e.forceOutput, events_accepted')

/-- `ScanManager.accept_event` (manager.py:245-249): register the event in
the accepted ledger and report whether it was new. -/
def accept_event (events_accepted : List EventHash) (e : Event) :
    Bool × List EventHash :=
  let r := is_duplicate_event events_accepted e true
  (!r.1, r.2)

/-- A registered module, restricted to the attributes `manager.py` reads:
its name, its `_type` ("scan", "output" or "internal"), the
`accept_dupes` and `emit_graph_trail` flags, and its
`_filter_event(event, precheck_only=True)` predicate (first component of
the returned pair). -/
structure Module where
  name : String
  mtype : String := "scan"
  accept_dupes : Bool := false
  emit_graph_trail : Bool := false
  filterAccept : Event → Bool := fun _ => true

/-- `ScanManager._event_precheck` (manager.py:73-96): reject dummy events
and events that are their own source; for non-`DNS_NAME` events, reject
duplicates and events no module's filter would accept. -/
def event_precheck (modules : List Module) (events_accepted : List EventHash)
    (e : Event) : Bool :=
  if e.dummy then false
  else if e.selfSource then false
  else if e.type ≠ "DNS_NAME" then
    if (is_duplicate_event events_accepted e false).1 then false
    else modules.foldl (fun any_acceptable m => any_acceptable || m.filterAccept e) false
  else true

/-! ## Dispatcher: `distribute_event` -/

/-- Scan-level configuration read by `distribute_event`: the two distance
thresholds `scan.scope_search_distance` and `scan.scope_report_distance`. -/
structure DistEnv where
  scope_search_distance : Int
  scope_report_distance : Int

/-- Outcome of one `distribute_event` call: the updated distributed
ledger, whether the event was a duplicate there, whether the word cloud
absorbed it, the modules (by name, in registry order) whose
`queue_event` received it, and how many times
`scan.stats.event_produced` fired. -/
structure DistResult where
  events_distributed : List (String × String)
  dup : Bool
  absorbed : Bool
  delivered : List String
  produced : Nat
  deriving Repr, DecidableEq

/-- The per-module loop of `distribute_event` (manager.py:314-326),
threading the `stats_recorded` flag.  Returns the delivery list and the
number of `event_produced` calls. -/
def distribute_mods (env : DistEnv) (e : Event) (dup : Bool) :
    List Module → Bool → List String × Nat
  | [], _ => ([], 0)
  | m :: ms, stats_recorded =>
    if !dup || m.accept_dupes then
      let event_within_scope_distance :=
        -1 < e.scopeDistance && e.scopeDistance ≤ env.scope_search_distance
      let event_within_report_distance :=
        -1 < e.scopeDistance && e.scopeDistance ≤ env.scope_report_distance
      if m.mtype = "output" then
        if event_within_report_distance || (e.forceOutput && m.emit_graph_trail) then
          let rest := distribute_mods env e dup ms true
          (m.name :: rest.1, (if stats_recorded then 0 else 1) + rest.2)
        else distribute_mods env e dup ms stats_recorded
      else
        if event_within_scope_distance then
          let rest := distribute_mods env e dup ms stats_recorded
          (m.name :: rest.1, rest.2)
        else distribute_mods env e dup ms stats_recorded
    else distribute_mods env e dup ms stats_recorded

/-- `ScanManager.distribute_event` (manager.py:297-326).  The distributed
ledger (keyed by the event's intrinsic `hash(event)`) is passed
explicitly; `modules` is `scan.modules.values()` in registry order. -/
def distribute_event (env : DistEnv) (events_distributed : List (String × String))
    (modules : List Module) (e : Event) : DistResult :=
  let event_hash := eventId e
  let dup := events_distributed.contains event_hash
  let events_distributed' :=
    if dup then events_distributed else event_hash :: events_distributed
  let absorbed := !dup && (-1 < e.scopeDistance && e.scopeDistance < 1)
  let r := distribute_mods env e dup modules false
  { events_distributed := events_distributed'
    dup := dup
    absorbed := absorbed
    delivered := r.1
    produced := r.2 }

/-- The delivery condition of `distribute_event` for one module, written
out as a single predicate: not a ledger duplicate (or the module accepts
duplicates), and the module's type/distance policy matches. -/
def deliverCond (env : DistEnv) (e : Event) (dup : Bool) (m : Module) : Bool :=
  (!dup || m.accept_dupes) &&
    (if m.mtype = "output" then
      (-1 < e.scopeDistance && e.scopeDistance ≤ env.scope_report_distance) ||
        (e.forceOutput && m.emit_graph_trail)
    else
      -1 < e.scopeDistance && e.scopeDistance ≤ env.scope_search_distance)

/-! ## Completion detector: `modules_status` -/

/-- One coherent reading of the scan's counters, as `modules_status` takes
on each confirmation pass: `scan.status_detailed`'s per-pool queued-event
and queued-task counts, and each module's `status["running"]` flag.  (The
error-state clearing and the `_log` branch of the Python method only log
or poke errored modules; they do not feed the returned `finished` flag
and are not part of the snapshot.) -/
structure StatusSnapshot where
  queued_events : List Nat
  queued_tasks : List Nat
  modules_running : List Bool

/-- One pass of `modules_status` (manager.py:410-424): the scan is idle on
a snapshot when every queued-event count is zero, every queued-task count
is zero, and no module reports itself running. -/
def snapshotIdle (s : StatusSnapshot) : Bool :=
  s.queued_events.all (fun n => n = 0) &&
    s.queued_tasks.all (fun n => n = 0) &&
    s.modules_running.all (fun b => !b)

/-- The confirmation loop of `modules_status` (manager.py:408-435).
`snaps i` is the snapshot the `i`-th pass reads; `finished` carries the
flag across passes (the Python code never resets it to `True`).  Returns
the final flag, the number of passes executed, and the number of
`sleep(0.1)` calls separating them. -/
def modules_status_go (snaps : Nat → StatusSnapshot) :
    Bool → Nat → Nat → Bool × Nat × Nat
  | finished, _, 0 => (finished, 0, 0)
  | finished, i, passes + 1 =>
    let finished := finished && snapshotIdle (snaps i)
    if finished && passes > 0 then
      let rest := modules_status_go snaps finished (i + 1) passes
      (rest.1, rest.2.1 + 1, rest.2.2 + 1)
    else (finished, 1, 0)

/-- `ScanManager.modules_status` (manager.py:398-437), restricted to the
computation of the returned `finished` flag: `passes = none` models the
default `passes=None` (5 confirmation passes); an explicit argument is
clamped to at least 1. -/
def modules_status (snaps : Nat → StatusSnapshot) (passes : Option Nat) :
    Bool × Nat × Nat :=
  let p := match passes with
    | none => 5
    | some n => max 1 n
  modules_status_go snaps true 0 p

/-! ## Event pipeline: `_emit_event` / `emit_event`

The per-event state machine of manager.py:43-220.  The mutable event
fields (`tags`, `scope_distance`) are threaded functionally; the calls to
`event.release_semaphore()`, `event._resolved.set()`,
`self.queue_event(event)`, `scan.stats.event_emitted`, the
`on_success_callback` and the recursive `self.emit_event(child)` calls
are recorded in an effect trace. -/

/-- Result of `scan.helpers.dns.resolve_event(event)` (manager.py:112-118). -/
structure DnsResult where
  dns_children : List (String × String)
  dns_tags : List String
  whitelisted_dns : Bool
  blacklisted_dns : Bool
  deriving Repr

/-- The scan-level collaborators `_emit_event` consults.  `make_event`
is modelled from the spec: `makeEvent(value, type, module, source) ->
Event | raises ValidationError` (`none` encodes the raise); its third and
fourth arguments are the dummy module's name and `_type` ("host"/
"internal" for speculation at manager.py:190, the record type and "DNS"
for DNS children at manager.py:201).  `stoppingAtPoll i` is the value of
the mutable `scan.stopping` flag at the `i`-th iteration of the
parent-synchronization loop. -/
structure PipelineEnv where
  dns_resolution : Bool
  has_blacklist : Bool
  scope_report_distance : Int
  dns_search_distance : Int
  whitelisted : Event → Bool
  blacklisted : Event → Bool
  resolve : Event → DnsResult
  stoppingAtPoll : Nat → Bool
  make_event : String → String → String → String → Event → Option Event

/-- Effects one pipeline run inflicts on its event: how often the permit
was released and the completion signal set, how often the event itself
was queued on the central queue, `stats.event_emitted` reports,
`on_success_callback` invocations, the child events recursively handed to
`emit_event`, and `ValidationError` warnings logged. -/
structure EmitTrace where
  resolvedSets : Nat := 0
  semReleases : Nat := 0
  queuedSelf : Nat := 0
  statsEmitted : Nat := 0
  onSuccessRuns : Nat := 0
  childEmits : List Event := []
  validationWarnings : Nat := 0
  deriving Repr, DecidableEq

/-- How one `_emit_event` run ended. -/
inductive EmitExit where
  | waiting          -- still polling inside the parent-wait loop; the finally has not run
  | abortIfVeto      -- early return at manager.py:172
  | notAccepted      -- early return at manager.py:175
  | normal
  | cancelled        -- ScanCancelledError raised at manager.py:141, caught by the outer catch
  | validationFailed -- ValidationError caught at manager.py:212
  deriving Repr, DecidableEq

structure EmitResult where
  exit : EmitExit
  ev : Event
  events_accepted : List EventHash
  trace : EmitTrace
  deriving Repr

/-- Python `set.add` on the event's tag set, modelled on lists. -/
def addTag (tags : List String) (t : String) : List String :=
  if tags.contains t then tags else tags ++ [t]

/-- Python `set.update` on the event's tag set. -/
def addTags (tags : List String) : List String → List String
  | [] => tags
  | t :: ts => addTags (addTag tags t) ts

/-- Modelled from the spec: `Event.make_in_scope(d)` (outside the embedded
file) promotes the event to the given scope distance (§4.1 step 5). -/
def make_in_scope (e : Event) (d : Int) : Event :=
  { e with scopeDistance := d }

/-- Modelled from the spec: `Event.make_internal` (outside the embedded
file) marks the event internal (§4.1 step 5). -/
def make_internal (e : Event) : Event :=
  { e with internal := true, tags := addTag e.tags "internal" }

inductive WaitResult where
  | resolved
  | cancelled
  | timeout
  deriving Repr, DecidableEq

/-- The parent-synchronization loop at manager.py:139-146.  Each
iteration first checks `scan.stopping` (raising `ScanCancelledError`),
then polls `event._resolved.wait(timeout=0.1)` — the event's OWN
completion signal, not the parent's.  Within a single `_emit_event` run
nothing writes that flag on this branch (only the skip-DNS branch at
manager.py:109 sets it, and that branch skips this loop; no other thread
holds this event), so the flag is the constant `resolvedFlag` across
polls.  `fuel` bounds how many polls we unfold; `.timeout` means the loop
was still spinning after `fuel` polls. -/
def resolved_wait (stoppingAtPoll : Nat → Bool) (resolvedFlag : Bool) :
    Nat → Nat → WaitResult
  | _, 0 => .timeout
  | i, fuel + 1 =>
    if stoppingAtPoll i then .cancelled
    else if resolvedFlag then .resolved
    else resolved_wait stoppingAtPoll resolvedFlag (i + 1) fuel

/-- Scope shepherding (manager.py:148-167). -/
def scope_shepherd (env : PipelineEnv) (events_accepted : List EventHash)
    (e : Event) (event_whitelisted : Bool) : Event :=
  let event_is_duplicate := (is_duplicate_event events_accepted e false).1
  let event_in_report_distance := e.scopeDistance ≤ env.scope_report_distance
  let set_scope_distance := if event_whitelisted then 0 else e.scopeDistance
  if e.host.isSome then
    if (event_whitelisted || event_in_report_distance) && !event_is_duplicate then
      make_in_scope e set_scope_distance
    else if e.scopeDistance > env.scope_report_distance then
      make_internal e
    else e
  else make_in_scope e 0

/-- The DNS-children construction loop (manager.py:198-208): one
`make_event` per resolved record, with the inner `try` dropping (and
warning about) records that fail validation.  Returns the valid child
events in record order and the number of dropped records. -/
def build_dns_children (env : PipelineEnv) (source_event : Event) :
    List (String × String) → List Event × Nat
  | [] => ([], 0)
  | (record, rdtype) :: rest =>
    let r := build_dns_children env source_event rest
    match env.make_event record "DNS_NAME" rdtype "DNS" source_event with
    | some child => (child :: r.1, r.2)
    | none => (r.1, r.2 + 1)

/-- State of one `_emit_event` run just before its `finally` block. -/
structure PreFinally where
  exit : EmitExit
  ev : Event
  events_accepted : List EventHash
  trace : EmitTrace
  event_emitted : Bool

/-- The tail of `_emit_event` after resolution/tagging/shepherding
(manager.py:169-210): the `abort_if` veto, `accept_event`, queueing, the
`on_success_callback`, DNS-child speculation and recursive emission.
`emit_event_flag` is the local `emit_event` variable (cleared by the
blacklist purge); `dns_children` is what resolution returned. -/
def pipeline_rest (env : PipelineEnv) (events_accepted : List EventHash)
    (e : Event) (emit_event_flag : Bool) (abortIf : Option (Event → Bool))
    (onSuccess : Bool) (dns_children : List (String × String))
    (tr : EmitTrace) : PreFinally :=
  if (match abortIf with | some f => f e | none => false) then
    { exit := .abortIfVeto, ev := e, events_accepted := events_accepted,
      trace := tr, event_emitted := false }
  else
    let a := accept_event events_accepted e
    if !a.1 then
      { exit := .notAccepted, ev := e, events_accepted := a.2,
        trace := tr, event_emitted := false }
    else
      let event_emitted := emit_event_flag
      let tr := if emit_event_flag then { tr with queuedSelf := tr.queuedSelf + 1 } else tr
      let tr := if onSuccess then { tr with onSuccessRuns := tr.onSuccessRuns + 1 } else tr
      let emit_children := -1 < e.scopeDistance && e.scopeDistance < env.dns_search_distance
      -- manager.py:188-196: speculate a DNS_NAME from the event's host
      let spec :=
        if e.host.isSome && e.type ≠ "DNS_NAME" && e.type ≠ "IP_ADDRESS"
            && e.type ≠ "IP_RANGE" then
          match env.make_event (e.host.getD "") "DNS_NAME" "host" "internal" e with
          | none => none
          | some se0 =>
            let se1 := { se0 with scopeDistance := e.scopeDistance }
            let se2 :=
              if e.tags.contains "target" then { se1 with tags := addTag se1.tags "target" }
              else se1
            some (se2, e.module ≠ "speculate")
        else some (e, false)
      match spec with
      | none =>
        -- ValidationError at manager.py:191 propagates to the handler at 212
        { exit := .validationFailed, ev := e, events_accepted := a.2,
          trace := { tr with validationWarnings := tr.validationWarnings + 1 },
          event_emitted := event_emitted }
      | some (source_event, emit_spec) =>
        let tr :=
          if emit_spec then { tr with childEmits := tr.childEmits ++ [source_event] } else tr
        if env.dns_resolution && emit_children then
          let b := build_dns_children env source_event dns_children
          let tr := { tr with childEmits := tr.childEmits ++ b.1 }
          let tr := { tr with validationWarnings := tr.validationWarnings + b.2 }
          { exit := .normal, ev := e, events_accepted := a.2,
            trace := tr, event_emitted := event_emitted }
        else
          { exit := .normal, ev := e, events_accepted := a.2,
            trace := tr, event_emitted := event_emitted }

/-- The `finally` block of `_emit_event` (manager.py:216-220): release the
event's permit, and report to `scan.stats.event_emitted` when the event
was queued.  Note: it does NOT set `event._resolved`. -/
def emit_finally (p : PreFinally) : EmitResult :=
  { exit := p.exit, ev := p.ev, events_accepted := p.events_accepted,
    trace := { p.trace with
      semReleases := p.trace.semReleases + 1,
      statsEmitted := p.trace.statsEmitted + (if p.event_emitted then 1 else 0) } }

/-- `ScanManager._emit_event` (manager.py:98-220).  `resolvedFlag` is the
state of the event's own `_resolved` signal when the run starts (`false`
on the thread-pool path: nothing sets it before submission). -/
def emit_event_run (env : PipelineEnv) (events_accepted : List EventHash)
    (e : Event) (resolvedFlag : Bool) (abortIf : Option (Event → Bool))
    (onSuccess : Bool) (waitFuel : Nat) : EmitResult :=
  -- manager.py:106-109
  let skip_dns_resolution :=
    !env.dns_resolution && e.tags.contains "target" && !env.has_blacklist
  if skip_dns_resolution then
    emit_finally (pipeline_rest env events_accepted e true abortIf onSuccess []
      { resolvedSets := 1 })
  else
    -- manager.py:111-127: resolution and tagging
    let r := env.resolve e
    let event_whitelisted := r.whitelisted_dns || env.whitelisted e
    let event_blacklisted := r.blacklisted_dns || env.blacklisted e
    let e :=
      if e.type = "DNS_NAME" || e.type = "IP_ADDRESS" then
        { e with tags := addTags e.tags r.dns_tags }
      else e
    let e :=
      if event_blacklisted then { e with tags := addTag e.tags "blacklisted" } else e
    -- manager.py:129-135: blacklist purging
    let emit_event_flag := !e.tags.contains "blacklisted"
    -- manager.py:137-146: parent synchronization
    if !event_whitelisted || !e.tags.contains "target" then
      match resolved_wait env.stoppingAtPoll resolvedFlag 0 waitFuel with
      | .timeout =>
        -- the while-loop is still spinning: the finally has not run
        { exit := .waiting, ev := e, events_accepted := events_accepted, trace := {} }
      | .cancelled =>
        let p : PreFinally :=
          { exit := .cancelled, ev := e, events_accepted := events_accepted,
            trace := {}, event_emitted := false }
        emit_finally p
      | .resolved =>
        let e := { e with scopeDistance := e.sourceScopeDistance + 1 }
        let e := scope_shepherd env events_accepted e event_whitelisted
        emit_finally (pipeline_rest env events_accepted e emit_event_flag abortIf
          onSuccess r.dns_children {})
    else
      let e := scope_shepherd env events_accepted e event_whitelisted
      emit_finally (pipeline_rest env events_accepted e emit_event_flag abortIf
        onSuccess r.dns_children {})

/-- Outcome of `scan._event_thread_pool.submit_task` at manager.py:65. -/
inductive SubmitOutcome where
  | ok            -- task accepted; the pool later runs catch(_emit_event, ...)
  | raisedRuntime -- RuntimeError (pool shut down), not logged
  | raisedOther   -- any other exception, logged
  deriving Repr, DecidableEq

/-- Environment for the full `emit_event` entry point: the pipeline
collaborators, the module registry (for the precheck), whether
`queue_event` raises inside the quick path (manager.py:55), the
`submit_task` outcome, and the value of `scan.stopping` when the pool
executes the submitted `catch(...)` task (manager.py:261). -/
structure EmitEnv where
  pipeline : PipelineEnv
  modules : List Module
  queueRaises : Bool := false
  submit : SubmitOutcome := .ok
  stoppingAtRun : Bool := false

/-- Which branch of `emit_event` handled the event. -/
inductive EmitPath where
  | precheckRejected
  | quick
  | submitFailed
  | submitted (exit : Option EmitExit) -- none: catch() skipped the callback (scan stopping)
  deriving Repr, DecidableEq

structure FullResult where
  path : EmitPath
  ev : Event
  events_accepted : List EventHash
  trace : EmitTrace
  deriving Repr

/-- `ScanManager.emit_event` (manager.py:43-71), composed with the later
execution of the submitted `self.catch(self._emit_event, event, ...)`
task (manager.py:251-284) so the trace collects every effect the event
ever sees.  The `catch` wrapper runs the callback only when the scan is
not already stopping (manager.py:261) and swallows the
`ScanCancelledError` the callback may raise. -/
def emit_event (env : EmitEnv) (events_accepted : List EventHash) (e : Event)
    (resolvedFlag : Bool) (quick : Bool) (abortIf : Option (Event → Bool))
    (onSuccess : Bool) (waitFuel : Nat) : FullResult :=
  if !event_precheck env.modules events_accepted e then
    -- manager.py:45-48
    { path := .precheckRejected, ev := e, events_accepted := events_accepted,
      trace := { semReleases := 1, resolvedSets := 1 } }
  else if quick then
    -- manager.py:50-61: abort_if and on_success_callback are popped and dropped,
    -- the event is queued directly, and the finally releases/sets
    { path := .quick, ev := e, events_accepted := events_accepted,
      trace := { queuedSelf := if env.queueRaises then 0 else 1,
                 semReleases := 1, resolvedSets := 1 } }
  else
    -- manager.py:63-71
    match env.submit with
    | .raisedRuntime =>
      { path := .submitFailed, ev := e, events_accepted := events_accepted,
        trace := { semReleases := 1, resolvedSets := 1 } }
    | .raisedOther =>
      { path := .submitFailed, ev := e, events_accepted := events_accepted,
        trace := { semReleases := 1, resolvedSets := 1 } }
    | .ok =>
      if env.stoppingAtRun then
        -- catch() at manager.py:261 skips the callback: nothing reaches the event
        { path := .submitted none, ev := e, events_accepted := events_accepted,
          trace := {} }
      else
        let r := emit_event_run env.pipeline events_accepted e resolvedFlag
          abortIf onSuccess waitFuel
        { path := .submitted (some r.exit), ev := r.ev,
          events_accepted := r.events_accepted, trace := r.trace }

/-! ## Driver loop: `loop_until_finished` and the `catch` wrapper -/

/-- How one wrapped callback would behave if invoked, matching the
exception classes `ScanManager.catch` distinguishes (manager.py:260-272). -/
inductive CBOutcome where
  | ok
  | raisesError         -- generic Exception: logged at error level
  | raisesScanCancelled -- ScanCancelledError: debug log only
  | raisesBrokenPipe    -- BrokenPipeError: debug log only
  | raisesKI            -- KeyboardInterrupt: debug log + scan.stop()
  deriving Repr, DecidableEq

/-- `ScanManager.catch` (manager.py:251-284), as a function of the
`scan.stopping` flag, the `_force` option and the callback's behavior.
The callback runs only when the scan is not stopping or `_force` is set;
every exception class the handler enumerates is caught and never
re-raised — which is why a sequence of `catch` calls always continues to
the next one.  Returns (callback ran, error-level log emitted, scan stop
requested). -/
def catch_invoke (stopping force : Bool) (outcome : CBOutcome) :
    Bool × Bool × Bool :=
  if !stopping || force then
    (true, outcome == CBOutcome.raisesError, outcome == CBOutcome.raisesKI)
  else (false, false, false)

/-- One poll of the central `event_queue` (manager.py:361-364): either an
event arrives within the 0.1s timeout, or `queue.Empty` is raised. -/
inductive Poll where
  | ev (e : Event)
  | empty
  deriving Repr

/-- How a `distribute_event` call inside the driver loop behaves
(manager.py:385): normal return, a generic exception, or a
`KeyboardInterrupt`. -/
inductive DistOutcome where
  | ok
  | raiseExc
  | raiseKI
  deriving Repr, DecidableEq

/-- How the driver loop ended. -/
inductive LoopExit where
  | aborted       -- scan status ABORTING: queue drained, loop broken (manager.py:341-348)
  | finishedBreak -- break at manager.py:366-367
  | excLogged     -- generic exception logged critically (manager.py:390-391)
  | kbStop        -- KeyboardInterrupt: scan.stop() (manager.py:387-388)
  | fuelOut       -- poll script exhausted with the loop still running
  deriving Repr, DecidableEq

/-- External state the driver loop reads, indexed by iteration: the scan
status, whether the periodic status log is due, what
`modules_status().get("finished", False)` reports when the queue is
idle, how `distribute_event` behaves per event, and how each module's
`report` hook behaves. -/
structure LoopEnv where
  modules : List Module
  statusAt : Nat → String := fun _ => "RUNNING"
  logDueAt : Nat → Bool := fun _ => false
  finishedAt : Nat → Bool := fun _ => false
  distributeOutcome : Event → DistOutcome := fun _ => .ok
  reportOutcome : String → CBOutcome := fun _ => .ok

/-- Observable effects of one driver-loop run. -/
structure LoopTrace where
  distributeCalls : List Event := []
  statusLogs : Nat := 0
  finishedBroadcasts : Nat := 0  -- rounds of mod.queue_event("FINISHED") to every module
  statusSetFinishing : Nat := 0  -- assignments scan.status = "FINISHING"
  stopCalls : Nat := 0
  drained : Bool := false
  reports : List (String × (Bool × Bool × Bool)) := []
  deriving Repr, DecidableEq

/-- The `while 1` body of `loop_until_finished` (manager.py:339-385).
`script` supplies one queue-poll result per iteration; `i` is the
iteration index, `event_counter` and `counter` the loop's counters.  The
branch mirroring manager.py:369-380 is kept verbatim even though the
`break` at manager.py:366-367 makes it unreachable. -/
def loop_body (env : LoopEnv) :
    List Poll → Nat → Nat → Nat → LoopTrace → LoopExit × LoopTrace
  | [], _, _, _, tr => (.fuelOut, tr)
  | p :: rest, i, event_counter, counter, tr =>
    if env.statusAt i = "ABORTING" then
      (.aborted, { tr with drained := true })
    else
      -- manager.py:350-355: periodic status log (modules_status(_log=True, passes=1))
      let tr := if env.logDueAt i then { tr with statusLogs := tr.statusLogs + 1 } else tr
      -- manager.py:357-359: the "python" module branch only yields events to the caller
      match p with
      | .ev e =>
        -- manager.py:362-363 dequeue, then manager.py:385 distribute
        let tr := { tr with distributeCalls := tr.distributeCalls ++ [e] }
        match env.distributeOutcome e with
        | .ok => loop_body env rest (i + 1) (event_counter + 1) counter tr
        | .raiseExc => (.excLogged, tr)
        | .raiseKI => (.kbStop, { tr with stopCalls := tr.stopCalls + 1 })
      | .empty =>
        let finished := env.finishedAt i
        if finished then
          -- manager.py:366-367
          (.finishedBreak, tr)
        else if finished then
          -- manager.py:369-380: dead code, kept for fidelity
          if event_counter > 0 then
            let tr := { tr with statusSetFinishing := tr.statusSetFinishing + 1 }
            let tr := { tr with finishedBroadcasts := tr.finishedBroadcasts + 1 }
            loop_body env rest (i + 1) 0 counter tr
          else (.finishedBreak, tr)
        else loop_body env rest (i + 1) event_counter (counter + 1) tr

/-- `ScanManager.loop_until_finished` (manager.py:328-396): run the loop
body over the poll script, then — whenever the loop actually exited —
run the `finally` block, which invokes every module's `report` hook
through `self.catch(mod.report, _force=True)`.  `stoppingAtEnd` is the
`scan.stopping` flag while the finally runs. -/
def loop_until_finished (env : LoopEnv) (script : List Poll)
    (stoppingAtEnd : Bool) : LoopExit × LoopTrace :=
  let r := loop_body env script 0 0 0 {}
  if r.1 = .fuelOut then r
  else
    let reports := env.modules.map fun m =>
      (m.name, catch_invoke stoppingAtEnd true (env.reportOutcome m.name))
    (r.1, { r.2 with reports := r.2.reports ++ reports })

/-! ## Theorems -/

/-- C9: for every event whose producing module has `suppress_dupes = false`,
`is_duplicate_event` returns false whatever the accepted ledger already
holds (and whether or not `add` is set), so `accept_event` accepts every
such event — the duplicate check is disabled per producing module. -/
theorem C9_suppress_dupes_disables_dedup (acc : List EventHash) (e : Event)
    (add : Bool) (h : e.suppressDupes = false) :
    (is_duplicate_event acc e add).1 = false ∧ (accept_event acc e).1 = true := by
  simp [is_duplicate_event, accept_event, h]

def ev9 : Event :=
  { type := "IP_ADDRESS", value := "1.2.3.4", module := "nmap",
    suppressDupes := false }

theorem C9_witness :
    (is_duplicate_event [hash_event ev9] ev9 true).1 = false ∧
      (accept_event [hash_event ev9] ev9).1 = true :=
  C9_suppress_dupes_disables_dedup [hash_event ev9] ev9 true (by decide)

/-- C4: deduplication identity.  (a) Two events with identical
(type, value, module) from a non-DNS module, under default duplicate
suppression and without force-output, collide in the accepted ledger: the
second is rejected by `accept_event`.  (b) Two events produced by DNS
modules with identical (type, value, module) but different source
identity hash differently, so both are accepted. -/
theorem C4_dedup_identity :
    (∀ (acc : List EventHash) (e1 e2 : Event),
      e1.moduleType ≠ "DNS" → e2.moduleType ≠ "DNS" →
      e1.type = e2.type → e1.value = e2.value → e1.module = e2.module →
      e2.suppressDupes = true → e2.forceOutput = false →
      (accept_event (accept_event acc e1).2 e2).1 = false) ∧
    (∀ (acc : List EventHash) (e1 e2 : Event),
      e1.moduleType = "DNS" → e2.moduleType = "DNS" →
      e1.type = e2.type → e1.value = e2.value → e1.module = e2.module →
      e1.sourceId ≠ e2.sourceId →
      acc.contains (hash_event e1) = false →
      acc.contains (hash_event e2) = false →
      (accept_event acc e1).1 = true ∧
        (accept_event (accept_event acc e1).2 e2).1 = true) := by
  constructor
  · intro acc e1 e2 h1 h2 ht hv hm hs hf
    have hh : hash_event e2 = hash_event e1 := by
      simp [hash_event, eventId, h1, h2, ht, hv, hm]
    simp [accept_event, is_duplicate_event, hh, hs, hf]
  · intro acc e1 e2 h1 h2 ht hv hm hsid hc1 hc2
    have hne : hash_event e2 ≠ hash_event e1 := by
      simp [hash_event, h1, h2]
      intro _ _
      exact fun h => hsid h.symm
    constructor
    · simp [accept_event, is_duplicate_event]
      exact Or.inl (Or.inr (by simpa using hc1))
    · simp [accept_event, is_duplicate_event, hne]
      exact Or.inl (Or.inr (by simpa using hc2))

def ev4a : Event := { type := "IP_ADDRESS", value := "1.2.3.4", module := "nmap" }

def ev4c : Event :=
  { type := "DNS_NAME", value := "www.example.com", module := "A",
    moduleType := "DNS", sourceId := 1 }

def ev4d : Event := { ev4c with sourceId := 2 }

theorem C4_witness :
    (accept_event (accept_event [] ev4a).2 ev4a).1 = false ∧
      ((accept_event [] ev4c).1 = true ∧
        (accept_event (accept_event [] ev4c).2 ev4d).1 = true) :=
  ⟨C4_dedup_identity.1 [] ev4a ev4a (by decide) (by decide) rfl rfl rfl rfl rfl,
   C4_dedup_identity.2 [] ev4c ev4d rfl rfl rfl rfl rfl (by decide)
     (by decide) (by decide)⟩

/-- The per-module loop of `distribute_event` delivers exactly to the
modules satisfying `deliverCond`, and fires `event_produced` once iff
some output-type module is among them (never when `stats_recorded`
already holds). -/
theorem distribute_mods_spec (env : DistEnv) (e : Event) (dup : Bool) :
    ∀ (ms : List Module) (stats : Bool),
      (distribute_mods env e dup ms stats).1
          = (ms.filter (fun m => deliverCond env e dup m)).map Module.name ∧
        (distribute_mods env e dup ms stats).2
          = (if stats then 0 else
              if ms.any (fun m => deliverCond env e dup m && m.mtype == "output")
              then 1 else 0) := by
  intro ms
  induction ms with
  | nil => intro stats; simp [distribute_mods]
  | cons m ms ih =>
    intro stats
    by_cases hacc : (!dup || m.accept_dupes) = true
    · by_cases hout : m.mtype = "output"
      · by_cases hrep : ((-1 < e.scopeDistance &&
            e.scopeDistance ≤ env.scope_report_distance) ||
            (e.forceOutput && m.emit_graph_trail)) = true
        · have h1 := (ih true).1
          have h2 := (ih true).2
          have h3 := (ih stats).1
          simp [distribute_mods, hacc, hout, hrep, deliverCond, h1, h2]
        · have h1 := (ih stats).1
          have h2 := (ih stats).2
          simp only [Bool.or_eq_true] at hrep
          push_neg at hrep
          simp [distribute_mods, hacc, hout, hrep.1, hrep.2, deliverCond, h1, h2]
      · by_cases hscope : (-1 < e.scopeDistance &&
            e.scopeDistance ≤ env.scope_search_distance) = true
        · have h1 := (ih stats).1
          have h2 := (ih stats).2
          simp [distribute_mods, hacc, hout, hscope, deliverCond, h1, h2]
        · have h1 := (ih stats).1
          have h2 := (ih stats).2
          simp [distribute_mods, hacc, hout, hscope, deliverCond, h1, h2]
    · have h1 := (ih stats).1
      have h2 := (ih stats).2
      simp [distribute_mods, hacc, deliverCond, h1, h2]

/-- C6: `distribute_event` delivers an event to exactly the registered
modules for which (not a distributed-ledger duplicate OR the module
accepts duplicates) AND the type/distance policy matches (output modules:
scope distance within `scope_report_distance`, or force-output to a
graph-trail module; other modules: within `scope_search_distance`); it
reports `event_produced` to the statistics sink exactly once when some
output module receives the event and never otherwise — hence at most once
per call, on the first output delivery. -/
theorem C6_distribute_policy (env : DistEnv) (dist : List (String × String))
    (mods : List Module) (e : Event) :
    (distribute_event env dist mods e).dup = dist.contains (eventId e) ∧
      (distribute_event env dist mods e).delivered
        = (mods.filter
            (fun m => deliverCond env e (dist.contains (eventId e)) m)).map
              Module.name ∧
      (distribute_event env dist mods e).produced
        = (if mods.any (fun m =>
              deliverCond env e (dist.contains (eventId e)) m
                && m.mtype == "output") then 1 else 0) ∧
      (distribute_event env dist mods e).produced ≤ 1 := by
  have h := distribute_mods_spec env e (dist.contains (eventId e)) mods false
  refine ⟨rfl, ?_, ?_, ?_⟩
  · simpa [distribute_event] using h.1
  · simpa [distribute_event] using h.2
  · have h2 : (distribute_event env dist mods e).produced
        = (if mods.any (fun m =>
            deliverCond env e (dist.contains (eventId e)) m
              && m.mtype == "output") then 1 else 0) := by
      simpa [distribute_event] using h.2
    rw [h2]
    split <;> simp

/-- When every pass from `lo` on reads an idle snapshot, the confirmation
loop runs all `p` passes, separated by `p - 1` sleeps, and reports
finished. -/
theorem modules_status_go_all_idle (snaps : Nat → StatusSnapshot) :
    ∀ (p lo : Nat), 0 < p →
      (∀ i, i < p → snapshotIdle (snaps (lo + i)) = true) →
      modules_status_go snaps true lo p = (true, p, p - 1) := by
  intro p
  induction p with
  | zero => intro lo h; omega
  | succ p ih =>
    intro lo _ hidle
    have h0 : snapshotIdle (snaps lo) = true := by
      simpa using hidle 0 (Nat.succ_pos p)
    by_cases hp : 0 < p
    · have hrest : modules_status_go snaps true (lo + 1) p = (true, p, p - 1) := by
        refine ih (lo + 1) hp fun i hi => ?_
        have := hidle (i + 1) (by omega)
        simpa [Nat.add_assoc, Nat.add_comm 1 i] using this
      simp [modules_status_go, h0, hp, hrest]
      omega
    · have hp0 : p = 0 := by omega
      subst hp0
      simp [modules_status_go, h0]

/-- When the first `j` passes read idle snapshots but pass `j` does not,
the confirmation loop stops after `j + 1` passes and reports not
finished. -/
theorem modules_status_go_first_bad (snaps : Nat → StatusSnapshot) :
    ∀ (j p lo : Nat), j < p →
      (∀ i, i < j → snapshotIdle (snaps (lo + i)) = true) →
      snapshotIdle (snaps (lo + j)) = false →
      modules_status_go snaps true lo p = (false, j + 1, j) := by
  intro j
  induction j with
  | zero =>
    intro p lo hp _ hbad
    obtain ⟨p', rfl⟩ : ∃ p', p = p' + 1 := ⟨p - 1, by omega⟩
    simp at hbad
    simp [modules_status_go, hbad]
  | succ j ih =>
    intro p lo hp hidle hbad
    obtain ⟨p', rfl⟩ : ∃ p', p = p' + 1 := ⟨p - 1, by omega⟩
    have h0 : snapshotIdle (snaps lo) = true := by
      simpa using hidle 0 (Nat.succ_pos j)
    have hp' : 0 < p' := by omega
    have hrest : modules_status_go snaps true (lo + 1) p' = (false, j + 1, j) := by
      refine ih p' (lo + 1) (by omega) (fun i hi => ?_) ?_
      · have := hidle (i + 1) (by omega)
        simpa [Nat.add_assoc, Nat.add_comm 1 i] using this
      · simpa [Nat.add_assoc, Nat.add_comm 1 j] using hbad
    simp [modules_status_go, h0, hp', hrest]

/-- C5: with the default `passes=None`, `modules_status` runs 5
confirmation passes.  It reports `finished = true` exactly when all 5
passes read an idle snapshot (every scan-level queued-event count zero,
every pool's queued-task count zero, no module running), in which case
all 5 passes ran, separated by 4 sleeps; as soon as a pass reads a
non-idle snapshot it returns immediately — after that pass, with
`finished = false`. -/
theorem C5_completion_confirmation (snaps : Nat → StatusSnapshot) :
    ((modules_status snaps none).1 = true ↔
      ∀ i, i < 5 → snapshotIdle (snaps i) = true) ∧
    ((∀ i, i < 5 → snapshotIdle (snaps i) = true) →
      modules_status snaps none = (true, 5, 4)) ∧
    (∀ j, j < 5 → (∀ i, i < j → snapshotIdle (snaps i) = true) →
      snapshotIdle (snaps j) = false →
      modules_status snaps none = (false, j + 1, j)) := by
  have hall : (∀ i, i < 5 → snapshotIdle (snaps i) = true) →
      modules_status snaps none = (true, 5, 4) := by
    intro h
    have := modules_status_go_all_idle snaps 5 0 (by omega)
      (fun i hi => by simpa using h i hi)
    simpa [modules_status] using this
  have hbad : ∀ j, j < 5 → (∀ i, i < j → snapshotIdle (snaps i) = true) →
      snapshotIdle (snaps j) = false →
      modules_status snaps none = (false, j + 1, j) := by
    intro j hj hpre hj'
    have := modules_status_go_first_bad snaps j 5 0 hj
      (fun i hi => by simpa using hpre i hi) (by simpa using hj')
    simpa [modules_status] using this
  refine ⟨⟨fun hfin => ?_, fun h => by rw [hall h]⟩, hall, hbad⟩
  by_contra hnot
  push_neg at hnot
  obtain ⟨i0, hi0, hbad0⟩ := hnot
  have hex : ∃ i, i < 5 ∧ snapshotIdle (snaps i) = false := by
    exact ⟨i0, hi0, by simpa using hbad0⟩
  classical
  have hexP : ∃ i, snapshotIdle (snaps i) = false ∧ i < 5 := by
    obtain ⟨i, h1, h2⟩ := hex
    exact ⟨i, h2, h1⟩
  let j := Nat.find hexP
  have hjspec := Nat.find_spec hexP
  have hjmin := fun m (hm : m < j) => Nat.find_min hexP hm
  have hj5 : j < 5 := hjspec.2
  have hpre : ∀ i, i < j → snapshotIdle (snaps i) = true := by
    intro i hi
    have hmin := hjmin i hi
    push_neg at hmin
    rcases Bool.eq_false_or_eq_true (snapshotIdle (snaps i)) with h | h
    · exact h
    · have h5 := hmin h
      omega
  have := hbad j hj5 hpre hjspec.1
  rw [this] at hfin
  simp at hfin

def snapsIdle : Nat → StatusSnapshot := fun _ =>
  { queued_events := [0, 0], queued_tasks := [0], modules_running := [false] }

theorem C5_witness : modules_status snapsIdle none = (true, 5, 4) :=
  (C5_completion_confirmation snapsIdle).2.1 (fun _ _ => rfl)

/-- C8: with `quick = true`, `emit_event` discards the `abort_if` and
`on_success_callback` options silently — the result is literally the same
as if they had not been passed, and no error path triggers — and (past
the precheck, with `queue_event` not raising) it bypasses the
asynchronous pipeline: the event is queued directly, the permit released
once and the completion signal set once, the accepted ledger untouched. -/
theorem C8_quick_path (env : EmitEnv) (acc : List EventHash) (e : Event)
    (rf : Bool) (abortIf : Option (Event → Bool)) (onSuccess : Bool)
    (fuel : Nat) (hpre : event_precheck env.modules acc e = true)
    (hq : env.queueRaises = false) :
    emit_event env acc e rf true abortIf onSuccess fuel
        = emit_event env acc e rf true none false fuel ∧
      (emit_event env acc e rf true abortIf onSuccess fuel).path
        = EmitPath.quick ∧
      (emit_event env acc e rf true abortIf onSuccess fuel).trace
        = { queuedSelf := 1, semReleases := 1, resolvedSets := 1 } ∧
      (emit_event env acc e rf true abortIf onSuccess fuel).events_accepted
        = acc := by
  refine ⟨rfl, ?_, ?_, ?_⟩ <;> simp [emit_event, hpre, hq]

def pipe8 : PipelineEnv :=
  { dns_resolution := false, has_blacklist := false,
    scope_report_distance := 0, dns_search_distance := 2,
    whitelisted := fun _ => false, blacklisted := fun _ => false,
    resolve := fun _ =>
      { dns_children := [], dns_tags := [],
        whitelisted_dns := false, blacklisted_dns := false },
    stoppingAtPoll := fun _ => false,
    make_event := fun _ _ _ _ _ => none }

def env8 : EmitEnv := { pipeline := pipe8, modules := [] }

def ev8 : Event := { type := "DNS_NAME", value := "www.example.com", module := "mod8" }

theorem C8_witness :
    event_precheck env8.modules [] ev8 = true ∧
      (emit_event env8 [] ev8 false true (some fun _ => true) true 3).path
        = EmitPath.quick :=
  ⟨by decide,
   (C8_quick_path env8 [] ev8 false (some fun _ => true) true 3
      (by decide) rfl).2.1⟩

/-! Concrete runs exhibiting the missing `event._resolved.set()` in
`_emit_event` and the parent-wait loop polling the wrong signal. -/

def pipeC1 : PipelineEnv :=
  { dns_resolution := true, has_blacklist := false,
    scope_report_distance := 1, dns_search_distance := 2,
    whitelisted := fun _ => false, blacklisted := fun _ => false,
    resolve := fun _ =>
      { dns_children := [], dns_tags := [],
        whitelisted_dns := false, blacklisted_dns := false },
    stoppingAtPoll := fun i => !(i == 0),
    make_event := fun _ _ _ _ _ => none }

def envC1 : EmitEnv := { pipeline := pipeC1, modules := [] }

def evC1 : Event := { type := "DNS_NAME", value := "a.example.com", module := "mod1" }

def rC1 : FullResult := emit_event envC1 [] evC1 false false none false 5

/-- C1 (code bug): a non-dummy `DNS_NAME` event submitted through the
thread pool, with DNS resolution enabled and the scan beginning to stop
during the parent-wait loop, runs to the `ScanCancelledError` exit: the
`finally` block at manager.py:216-220 releases the permit once but sets
the completion signal zero times — only the skip-DNS branch at
manager.py:109 ever sets `event._resolved`, so on this exit path (and on
blacklist, abort_if, duplicate and normal exits alike) the signal never
fires, contradicting the claimed exactly-once firing. -/
theorem C1_completion_signal_dropped :
    rC1.path = EmitPath.submitted (some EmitExit.cancelled) ∧
      rC1.trace.semReleases = 1 ∧ rC1.trace.resolvedSets = 0 := by
  decide

theorem resolved_wait_never_stopping (i fuel : Nat) :
    resolved_wait (fun _ => false) false i fuel = WaitResult.timeout := by
  induction fuel generalizing i with
  | zero => rfl
  | succ fuel ih => simp [resolved_wait, ih]

def pipeC2 : PipelineEnv :=
  { dns_resolution := true, has_blacklist := false,
    scope_report_distance := 1, dns_search_distance := 2,
    whitelisted := fun _ => false, blacklisted := fun _ => false,
    resolve := fun _ =>
      { dns_children := [], dns_tags := [],
        whitelisted_dns := false, blacklisted_dns := false },
    stoppingAtPoll := fun _ => false,
    make_event := fun _ _ _ _ _ => none }

def envC2 : EmitEnv := { pipeline := pipeC2, modules := [] }

def evC2 : Event :=
  { type := "DNS_NAME", value := "b.example.com", module := "mod2",
    sourceResolved := true, sourceScopeDistance := 0 }

/-- C2 (code bug): for a non-whitelisted event whose PARENT's completion
signal has already fired (`sourceResolved = true`) and whose scan never
stops, the parent-synchronization loop at manager.py:139-146 — which
polls `event._resolved`, the event's OWN signal, never set on this
branch — spins forever: however many polls we unfold, the run is still
`.waiting`, nothing has happened to the event, and its scope distance was
never set to parent + 1. -/
theorem C2_parent_wait_polls_own_signal :
    evC2.sourceResolved = true ∧
      ∀ fuel : Nat,
        (emit_event envC2 [] evC2 false false none false fuel).path
            = EmitPath.submitted (some EmitExit.waiting) ∧
          (emit_event envC2 [] evC2 false false none false fuel).trace = {} ∧
          (emit_event envC2 [] evC2 false false none false fuel).ev.scopeDistance
            = evC2.scopeDistance := by
  refine ⟨rfl, fun fuel => ?_⟩
  have hw := resolved_wait_never_stopping 0 fuel
  simp +decide only [emit_event, emit_event_run, envC2, pipeC2, evC2]
  rw [hw]
  simp +decide

def pipeC7 : PipelineEnv :=
  { dns_resolution := true, has_blacklist := true,
    scope_report_distance := 1, dns_search_distance := 2,
    whitelisted := fun _ => false, blacklisted := fun _ => false,
    resolve := fun _ =>
      { dns_children := [("www.evil.com", "A")], dns_tags := [],
        whitelisted_dns := true, blacklisted_dns := true },
    stoppingAtPoll := fun _ => false,
    make_event := fun v t mn mt _ =>
      some { type := t, value := v, module := mn, moduleType := mt } }

def envC7 : EmitEnv := { pipeline := pipeC7, modules := [] }

def evC7 : Event :=
  { type := "DNS_NAME", value := "evil.com", module := "mod7",
    host := some "evil.com", tags := ["target"], scopeDistance := 0 }

def rC7 : FullResult := emit_event envC7 [] evC7 false false none false 5

/-- C7 (code bug): a whitelisted target event with a blacklist verdict is
tagged "blacklisted", never queued on the central queue, never reported
to `stats.event_emitted`, its permit is released and its DNS children are
still constructed and recursively emitted — but the completion signal is
set zero times (the `finally` at manager.py:216-220 only releases the
semaphore), contradicting the claimed permit-and-signal completion. -/
theorem C7_blacklisted_suppressed_but_signal_never_set :
    rC7.ev.tags.contains "blacklisted" = true ∧
      rC7.trace.queuedSelf = 0 ∧ rC7.trace.statsEmitted = 0 ∧
      rC7.trace.semReleases = 1 ∧
      rC7.trace.childEmits =
        [{ type := "DNS_NAME", value := "www.evil.com", module := "A",
           moduleType := "DNS" }] ∧
      rC7.trace.resolvedSets = 0 := by
  decide

/-- The FINISHING broadcast branch (manager.py:369-380) is dead code: on
every input the loop body leaves the broadcast counter and the
status-assignment counter untouched, because the `break` at
manager.py:366-367 fires first under the identical condition. -/
theorem loop_body_never_broadcasts (env : LoopEnv) :
    ∀ (script : List Poll) (i ec c : Nat) (tr : LoopTrace),
      (loop_body env script i ec c tr).2.finishedBroadcasts
          = tr.finishedBroadcasts ∧
        (loop_body env script i ec c tr).2.statusSetFinishing
          = tr.statusSetFinishing := by
  intro script
  induction script with
  | nil => intro i ec c tr; simp [loop_body]
  | cons p rest ih =>
    intro i ec c tr
    by_cases hab : env.statusAt i = "ABORTING"
    · simp [loop_body, hab]
    · by_cases hl : env.logDueAt i = true
      · cases p with
        | ev e =>
          cases hd : env.distributeOutcome e <;>
            simp [loop_body, hab, hl, hd, ih]
        | empty =>
          by_cases hf : env.finishedAt i = true <;>
            simp [loop_body, hab, hl, hf, ih]
      · cases p with
        | ev e =>
          cases hd : env.distributeOutcome e <;>
            simp [loop_body, hab, hl, hd, ih]
        | empty =>
          by_cases hf : env.finishedAt i = true <;>
            simp [loop_body, hab, hl, hf, ih]

def evC3 : Event := { type := "IP_ADDRESS", value := "5.6.7.8", module := "mod3" }

def envC3 : LoopEnv :=
  { modules := [{ name := "out", mtype := "output" }, { name := "scan1" }],
    finishedAt := fun i => i == 1 }

def rC3 : LoopExit × LoopTrace :=
  loop_until_finished envC3 [Poll.ev evC3, Poll.empty] false

/-- C3 (code bug): the `break` at manager.py:366-367 exits the driver
loop as soon as the completion detector reports finished, making the
FINISHING/broadcast block at manager.py:369-380 unreachable on every
input (first conjunct); in particular, in a run where an event WAS
dequeued during the cycle and the detector then reports finished, the
loop terminates without ever setting scan status to FINISHING or
broadcasting the "FINISHED" sentinel (remaining conjuncts), contrary to
the claimed broadcast-and-continue behavior. -/
theorem C3_finishing_broadcast_unreachable :
    (∀ (env : LoopEnv) (script : List Poll) (i ec c : Nat) (tr : LoopTrace),
      (loop_body env script i ec c tr).2.finishedBroadcasts
          = tr.finishedBroadcasts ∧
        (loop_body env script i ec c tr).2.statusSetFinishing
          = tr.statusSetFinishing) ∧
      rC3.1 = LoopExit.finishedBreak ∧
      rC3.2.distributeCalls = [evC3] ∧
      rC3.2.finishedBroadcasts = 0 ∧ rC3.2.statusSetFinishing = 0 := by
  refine ⟨fun env => loop_body_never_broadcasts env, ?_, ?_, ?_, ?_⟩ <;> decide

/-- The loop body itself never touches the report list: reports happen
only in the `finally` of `loop_until_finished`. -/
theorem loop_body_reports (env : LoopEnv) :
    ∀ (script : List Poll) (i ec c : Nat) (tr : LoopTrace),
      (loop_body env script i ec c tr).2.reports = tr.reports := by
  intro script
  induction script with
  | nil => intro i ec c tr; simp [loop_body]
  | cons p rest ih =>
    intro i ec c tr
    by_cases hab : env.statusAt i = "ABORTING"
    · simp [loop_body, hab]
    · by_cases hl : env.logDueAt i = true
      · cases p with
        | ev e =>
          cases hd : env.distributeOutcome e <;>
            simp [loop_body, hab, hl, hd, ih]
        | empty =>
          by_cases hf : env.finishedAt i = true <;>
            simp [loop_body, hab, hl, hf, ih]
      · cases p with
        | ev e =>
          cases hd : env.distributeOutcome e <;>
            simp [loop_body, hab, hl, hd, ih]
        | empty =>
          by_cases hf : env.finishedAt i = true <;>
            simp [loop_body, hab, hl, hf, ih]

def evA10 : Event := { type := "DNS_NAME", value := "a10", module := "m" }

def evB10 : Event := { type := "DNS_NAME", value := "b10", module := "m" }

def evD10 : Event := { type := "DNS_NAME", value := "d10", module := "m" }

def envC10 : LoopEnv :=
  { modules := [{ name := "out", mtype := "output" }, { name := "scan1" }],
    distributeOutcome := fun e => if e.value = "b10" then .raiseExc else .ok,
    reportOutcome := fun n => if n = "out" then .raisesError else .ok }

def rC10 : LoopExit × LoopTrace :=
  loop_until_finished envC10 [Poll.ev evA10, Poll.ev evB10, Poll.ev evD10] false

/-- C10: whenever the driver loop actually terminates — normally,
aborted, stopped by interrupt, or after a non-KeyboardInterrupt exception
from `distribute_event` — its `finally` invokes each module's `report`
hook exactly once through `catch(_force=True)`: every hook runs (even
while the scan is stopping, and even when another hook raises; its
failure is logged, not propagated).  Concretely, an exception raised by
`distribute_event` on the second queued event terminates the loop with a
critical log before the third event is processed, and both modules'
report hooks still run — the first hook's failure does not prevent the
second. -/
theorem C10_exception_terminates_reports_still_run :
    (∀ (env : LoopEnv) (script : List Poll) (st : Bool),
      (loop_until_finished env script st).1 ≠ LoopExit.fuelOut →
      (loop_until_finished env script st).2.reports
        = env.modules.map fun m =>
            (m.name, true, env.reportOutcome m.name == CBOutcome.raisesError,
              env.reportOutcome m.name == CBOutcome.raisesKI)) ∧
      rC10.1 = LoopExit.excLogged ∧
      rC10.2.distributeCalls = [evA10, evB10] ∧
      rC10.2.reports
        = [("out", true, true, false), ("scan1", true, false, false)] := by
  refine ⟨?_, by decide, by decide, by decide⟩
  intro env script st h
  by_cases hb : (loop_body env script 0 0 0 {}).1 = LoopExit.fuelOut
  · exact absurd (by simp [loop_until_finished, hb]) h
  · simp [loop_until_finished, hb, loop_body_reports, catch_invoke]

theorem C10_witness :
    (loop_until_finished envC10
        [Poll.ev evA10, Poll.ev evB10, Poll.ev evD10] false).2.reports
      = envC10.modules.map fun m =>
          (m.name, true, envC10.reportOutcome m.name == CBOutcome.raisesError,
            envC10.reportOutcome m.name == CBOutcome.raisesKI) :=
  C10_exception_terminates_reports_still_run.1 envC10
    [Poll.ev evA10, Poll.ev evB10, Poll.ev evD10] false (by decide)

end BBot
